import Mathlib

/-!
# Shallow embedding of the Excel colourizer core

This file embeds the bound-calculation and margin-classification algorithm of
the repository (`src/excel_modifier/__init__.py`, `src/main.py`) in Lean.

Modelling conventions:
* A cell is `Option ℚ`: `some v` is a numeric cell, `none` is the missing
  (NaN) sentinel.  Numeric values are modelled by exact rationals; pandas
  floating point rounding is out of scope.
* Every Python comparison with NaN is false; this is captured by the
  `optLT`/`optLE`/`optGT`/`optGE` functions, which return `false` whenever
  either side is missing.  The source guard `current_data != 'nan'` compares a
  float against the string `'nan'` and therefore never skips a float cell; a
  missing cell is nevertheless never written because every chained comparison
  on it is false.  Either way a missing cell produces no write, so `none`
  cells simply fail every condition here.
* `pd.Series.quantile` drops NaN, uses the linear (R-7) interpolation rule and
  never raises on an empty or all-NaN series: it returns NaN, modelled as
  `none`.
* `worksheet.write` calls are modelled as emitted `WriteCmd` values, in
  emission order.  The two `add_format` objects are distinct handles
  (`FmtHandle.upperFmt` / `FmtHandle.lowerFmt`) carrying the background colour
  resolved from the colour options, exactly as in the source.
* A missing key lookup (`sheet_data[name]`, `columns.get_loc(name)`) raises
  pandas `KeyError`, modelled with `Except` and `PyError.keyError`.
-/

/- Core marks the rational arithmetic operations `[irreducible]`; the concrete
scenarios below are settled by evaluation (`decide`), which needs them to
unfold. -/
attribute [local semireducible] Rat.add Rat.mul Rat.sub Rat.inv

/- Equality of run results (`Except` values) is decidable. -/
deriving instance DecidableEq for Except

/-- A spreadsheet cell: `some v` for a numeric value, `none` for the missing
(NaN) sentinel. -/
abbrev Cell := Option ℚ

/-- A column is the ordered list of its cells. -/
abbrev Col := List Cell

/-- The two reusable cell formats created by `workbook_writer.book.add_format`
at the top of `_colourize_columns`: one for the upper margin, one for the
lower margin.  They are distinct objects even when the two colours agree. -/
inductive FmtHandle
  | upperFmt
  | lowerFmt
deriving DecidableEq, Repr

/-- One `worksheet.write(row, col, value, format)` call emitted by the
classifier: target row and column, the original cell value, the format handle
and its background colour string. -/
structure WriteCmd where
  row : ℤ
  col : ℤ
  value : ℚ
  fmt : FmtHandle
  bg : String
deriving DecidableEq, Repr

/-- Errors the embedded code can actually raise: a pandas `KeyError` on a
missing column name. -/
inductive PyError
  | keyError (key : String)
deriving DecidableEq, Repr

/-- The numeric values of a column, in row order (NaN cells dropped, exactly
what pandas numeric reductions operate on). -/
def numericValues (col : Col) : List ℚ := col.filterMap id

/-- Insert a value into an ascending list, keeping it sorted. -/
def insertSorted (x : ℚ) : List ℚ → List ℚ
  | [] => [x]
  | y :: ys => if x ≤ y then x :: y :: ys else y :: insertSorted x ys

/-- Ascending sort (models `series.sort_values()`). -/
def sortAsc (l : List ℚ) : List ℚ := l.foldr insertSorted []

/-- Floor of a nonnegative rational as a natural number.  All quantile
positions `h = q * (n - 1)` with `q ∈ [0, 1]` are nonnegative, where integer
division agrees with the mathematical floor. -/
def qFloorNat (h : ℚ) : ℕ := (h.num / (h.den : ℤ)).toNat

/-- `pd.Series.quantile` with the default `linear` (R-7) interpolation on an
ascending list of the numeric values: position `h = q * (n - 1)`, linear
interpolation between the order statistics at `⌊h⌋` and `⌊h⌋ + 1`.  On an
empty list (empty or all-NaN series) pandas returns NaN, modelled as
`none`. -/
def quantileSorted (xs : List ℚ) (q : ℚ) : Option ℚ :=
  match xs with
  | [] => none
  | x :: rest =>
    let n := rest.length + 1
    let h := q * ((n : ℚ) - 1)
    let i := qFloorNat h
    let lo := (x :: rest).getD i x
    let hi := (x :: rest).getD (i + 1) lo
    some (lo + (h - (i : ℚ)) * (hi - lo))

/-- `_calculate_bounds(series, upper_bound, lower_bound, include_zero)` from
`src/main.py` lines 37–71 (the copy in `src/excel_modifier/__init__.py` lines
37–69 is identical except that it does not take `include_zero`): sort the
series, then return the values at the `1 - upper_bound/100` and
`lower_bound/100` quantiles.  The `include_zero` parameter is accepted but
never used by the body — no zero filtering happens. -/
def calculate_bounds (col : Col) (upper_bound lower_bound : ℚ)
    (include_zero : Bool) : Option ℚ × Option ℚ :=
  let sorted_series := sortAsc (numericValues col)
  let upper_bound_quantile := 1 - upper_bound / 100
  let lower_bound_quantile := lower_bound / 100
  (quantileSorted sorted_series upper_bound_quantile,
   quantileSorted sorted_series lower_bound_quantile)

/-- `current_column.max()`: maximum of the numeric values, NaN (`none`) when
there are none. -/
def listMax : List ℚ → Option ℚ
  | [] => none
  | x :: xs =>
    some (match listMax xs with
          | none => x
          | some m => max x m)

/-- `current_column.min()`. -/
def listMin : List ℚ → Option ℚ
  | [] => none
  | x :: xs =>
    some (match listMin xs with
          | none => x
          | some m => min x m)

/-- Column maximum over the numeric cells. -/
def colMax (col : Col) : Option ℚ := listMax (numericValues col)

/-- Column minimum over the numeric cells. -/
def colMin (col : Col) : Option ℚ := listMin (numericValues col)

/-- Number of cells of the raw column equal to `some v`
(`(current_column == v)` is false on NaN cells, so they count in the
denominator of `.mean()` but never in the numerator). -/
def countEq (col : Col) (v : ℚ) : ℕ :=
  (col.filter (fun c => decide (c = some v))).length

/-- `(current_column == largest).mean() >= majority_percentage / 100`: the
relative frequency of the maximum over the whole raw column (missing cells
included in the denominator).  When the column has no numeric value the
boolean series is all-false and its mean is `0`. -/
def upperMajority (col : Col) (majority_percentage : ℚ) : Bool :=
  match colMax col with
  | none => decide ((0 : ℚ) ≥ majority_percentage / 100)
  | some m =>
    decide (((countEq col m : ℚ)) / (col.length : ℚ) ≥ majority_percentage / 100)

/-- `(current_column == smallest).mean() >= majority_percentage / 100`. -/
def lowerMajority (col : Col) (majority_percentage : ℚ) : Bool :=
  match colMin col with
  | none => decide ((0 : ℚ) ≥ majority_percentage / 100)
  | some m =>
    decide (((countEq col m : ℚ)) / (col.length : ℚ) ≥ majority_percentage / 100)

/-- Python `a < b` where either side may be NaN: false unless both are
numbers. -/
def optLT (a b : Option ℚ) : Bool :=
  match a, b with
  | some x, some y => decide (x < y)
  | _, _ => false

/-- Python `a <= b` with NaN semantics. -/
def optLE (a b : Option ℚ) : Bool :=
  match a, b with
  | some x, some y => decide (x ≤ y)
  | _, _ => false

/-- Python `a > b` with NaN semantics. -/
def optGT (a b : Option ℚ) : Bool :=
  match a, b with
  | some x, some y => decide (y < x)
  | _, _ => false

/-- Python `a >= b` with NaN semantics. -/
def optGE (a b : Option ℚ) : Bool :=
  match a, b with
  | some x, some y => decide (y ≤ x)
  | _, _ => false

/-- The upper-margin test of `_colourize_columns`: when the largest element is
a majority, `largest > current_data >= bounds[0]` (strict at the top), else
`largest >= current_data >= bounds[0]` (inclusive).  Both branches of the
source perform the identical `worksheet.write` call, so the two nested `if`s
are flattened into one condition. -/
def upperCond (largest uB : Option ℚ) (upMaj : Bool) (v : ℚ) : Bool :=
  if upMaj then optGT largest (some v) && optGE (some v) uB
  else optGE largest (some v) && optGE (some v) uB

/-- The lower-margin test: `smallest < current_data <= bounds[1]` when the
smallest element is a majority, else `smallest <= current_data <=
bounds[1]`. -/
def lowerCond (smallest lB : Option ℚ) (loMaj : Bool) (v : ℚ) : Bool :=
  if loMaj then optLT smallest (some v) && optLE (some v) lB
  else optLE smallest (some v) && optLE (some v) lB

/-- `'#FFC7CE' if colour == 'red' else '#C6EFCE'`. -/
def bgColor (c : String) : String := if c = "red" then "#FFC7CE" else "#C6EFCE"

/-- The per-column state `_colourize_columns` sets up before its row loop:
formatting option, the column's bounds, extremes, majority flags, colours and
the target column index `column_offset + column_pos`. -/
structure Ctx where
  fmtOpt : String
  uB : Option ℚ
  lB : Option ℚ
  largest : Option ℚ
  smallest : Option ℚ
  upMaj : Bool
  loMaj : Bool
  upC : String
  loC : String
  outCol : ℤ
deriving DecidableEq, Repr

/-- The writes the body of the row loop emits for one cell: the upper-margin
write (when the formatting option requests the upper margin and the upper
condition holds) followed by the lower-margin write.  A missing cell emits
nothing: the `!= 'nan'` guard only matches a literal string sentinel and
every numeric comparison with NaN is false. -/
def cellWrites (ctx : Ctx) (outRow : ℤ) (cur : Cell) : List WriteCmd :=
  match cur with
  | none => []
  | some v =>
    (if (ctx.fmtOpt == "colour_upper" || ctx.fmtOpt == "colour_both")
        && upperCond ctx.largest ctx.uB ctx.upMaj v
     then [⟨outRow, ctx.outCol, v, FmtHandle.upperFmt, bgColor ctx.upC⟩]
     else [])
    ++
    (if (ctx.fmtOpt == "colour_lower" || ctx.fmtOpt == "colour_both")
        && lowerCond ctx.smallest ctx.lB ctx.loMaj v
     then [⟨outRow, ctx.outCol, v, FmtHandle.lowerFmt, bgColor ctx.loC⟩]
     else [])

/-- The data row read at loop counter `row_pos`: `sheet_data.iat[row_pos - 1]`.
For `row_pos = 0` Python's negative indexing wraps to the last row
(`iat[-1]`), so the last data row is read both first and last. -/
def dataIdx (rowPos nR : ℕ) : ℕ := if rowPos = 0 then nR - 1 else rowPos - 1

/-- The per-column context, built from the column as in the source:
extremes via `max()`/`min()`, majority flags via the raw-column relative
frequency test. -/
def mkCtx (col : Col) (colPos : ℕ) (fmtOpt : String) (uB lB : Option ℚ)
    (upC loC : String) (mp : ℚ) (colOff : ℤ) : Ctx :=
  ⟨fmtOpt, uB, lB, colMax col, colMin col,
   upperMajority col mp, lowerMajority col mp, upC, loC, colOff + colPos⟩

/-- The row loop of `_colourize_columns` for one column
(`src/excel_modifier/__init__.py` lines 336–364):
`for row_pos in range(0, num_rows + 1)` — that is `num_rows + 1` iterations —
reading `iat[row_pos - 1]` and writing at row `row_offset + row_pos - 1`.
On an empty frame (`nR = 0`) the source raises `IndexError` at `iat[-1]`;
here the out-of-range read is `none` and nothing is emitted (no claim
concerns an empty sheet). -/
def colourizeOne (col : Col) (nR : ℕ) (colPos : ℕ) (fmtOpt : String)
    (uB lB : Option ℚ) (upC loC : String) (mp : ℚ) (rowOff colOff : ℤ) :
    List WriteCmd :=
  (List.range (nR + 1)).flatMap (fun rowPos =>
    cellWrites (mkCtx col colPos fmtOpt uB lB upC loC mp colOff)
      (rowOff + (rowPos : ℤ) - 1) (col.getD (dataIdx rowPos nR) none))

/-- A sheet: its named columns in order (a pandas DataFrame snapshot). -/
abbrev Sheet := List (String × Col)

/-- `sheet_data.shape[0]`: the common row count of the columns. -/
def numRows : Sheet → ℕ
  | [] => 0
  | c :: _ => c.2.length

/-- First column with the given name, if any. -/
def findColumn (s : Sheet) (name : String) : Option Col :=
  match s with
  | [] => none
  | p :: t => if p.1 == name then some p.2 else findColumn t name

/-- `sheet_data[name]`: the column, or a `KeyError` when absent. -/
def getColumn (s : Sheet) (name : String) : Except PyError Col :=
  match findColumn s name with
  | some c => Except.ok c
  | none => Except.error (PyError.keyError name)

/-- Position of the named column, if present. -/
def columnPosAux (s : Sheet) (name : String) : Option ℕ :=
  match s with
  | [] => none
  | p :: t => if p.1 == name then some 0 else (columnPosAux t name).map (· + 1)

/-- `sheet_data.columns.get_loc(name)`: the column index, or a `KeyError`. -/
def columnPos (s : Sheet) (name : String) : Except PyError ℕ :=
  match columnPosAux s name with
  | some i => Except.ok i
  | none => Except.error (PyError.keyError name)

/-- Whether the sheet has a column of this name. -/
def hasColumn (s : Sheet) (name : String) : Bool := (findColumn s name).isSome

/-- The first requested name missing from the sheet, if any. -/
def firstMissing (s : Sheet) (names : List String) : Option String :=
  match names with
  | [] => none
  | n :: ns => if hasColumn s n then firstMissing s ns else some n

/-- PART 1 of `_colourize_columns`: the dict comprehension
`{name: _calculate_bounds(sheet_data[name], upper, lower) for name in
columns_to_format}`.  The first absent name raises `KeyError`, aborting the
whole comprehension — and with it the whole call. -/
def boundsList (s : Sheet) (names : List String) (u l : ℚ) :
    Except PyError (List (String × (Option ℚ × Option ℚ))) :=
  match names with
  | [] => Except.ok []
  | n :: ns =>
    match getColumn s n with
    | Except.error e => Except.error e
    | Except.ok col =>
      match boundsList s ns u l with
      | Except.error e => Except.error e
      | Except.ok rest => Except.ok ((n, calculate_bounds col u l false) :: rest)

/-- `bounds[name]` in PART 2.  The bounds were just computed for every
requested name, so the lookup cannot fail; the `none` fallback is dead. -/
def lookupBounds (bounds : List (String × (Option ℚ × Option ℚ)))
    (n : String) : Option ℚ × Option ℚ :=
  match bounds.find? (fun q => q.1 == n) with
  | some q => q.2
  | none => (none, none)

/-- PART 2 of `_colourize_columns`: for each requested column, find its
position and data and run the row loop; the emitted writes of the columns are
concatenated in request order. -/
def writesList (s : Sheet) (nR : ℕ)
    (bounds : List (String × (Option ℚ × Option ℚ))) (names : List String)
    (fmtOpt upC loC : String) (mp : ℚ) (rowOff colOff : ℤ) :
    Except PyError (List WriteCmd) :=
  match names with
  | [] => Except.ok []
  | n :: ns =>
    match columnPos s n with
    | Except.error e => Except.error e
    | Except.ok colPos =>
      match getColumn s n with
      | Except.error e => Except.error e
      | Except.ok col =>
        match writesList s nR bounds ns fmtOpt upC loC mp rowOff colOff with
        | Except.error e => Except.error e
        | Except.ok rest =>
          Except.ok
            (colourizeOne col nR colPos fmtOpt (lookupBounds bounds n).1
              (lookupBounds bounds n).2 upC loC mp rowOff colOff ++ rest)

/-- `_colourize_columns(sheet_name, sheet_data, columns_to_format,
formatting_option, margin_options, colour_options, majority_percentage,
write_offsets)` (`src/excel_modifier/__init__.py` lines 229–364): compute the
bounds of every requested column up front, then classify each column row by
row, emitting write commands. -/
def colourize_columns (sheet_data : Sheet) (columns_to_format : List String)
    (formatting_option : String) (margin_upper margin_lower : ℚ)
    (colour_upper colour_lower : String) (majority_percentage : ℚ)
    (row_offset column_offset : ℤ) : Except PyError (List WriteCmd) :=
  match boundsList sheet_data columns_to_format margin_upper margin_lower with
  | Except.error e => Except.error e
  | Except.ok bounds =>
    writesList sheet_data (numRows sheet_data) bounds columns_to_format
      formatting_option colour_upper colour_lower majority_percentage
      row_offset column_offset

/-- Follows the spec's words, for comparison (claims C2, C5): the eligible
cells of a column after zero/missing filtering. -/
def specEligible (col : Col) : List ℚ :=
  (numericValues col).filter (fun v => decide (v ≠ 0))

/-! ## Concrete columns used by the claims -/

/-- The end-to-end scenario column "score" = `[10,20,...,100]`. -/
def scoreCol : Col :=
  [some 10, some 20, some 30, some 40, some 50,
   some 60, some 70, some 80, some 90, some 100]

/-- The column `[1..10]` of the overlap scenario. -/
def tenCol : Col :=
  [some 1, some 2, some 3, some 4, some 5,
   some 6, some 7, some 8, some 9, some 10]

/-- The column `[1,2,...,100]` of the quantile scenario. -/
def col100 : Col := (List.range 100).map (fun i => some ((i : ℚ) + 1))

/-- The majority-exclusion example column `[5,5,5,5,1,2,3]`. -/
def sevenCol : Col :=
  [some 5, some 5, some 5, some 5, some 1, some 2, some 3]

/-- The zero-exclusion example column `[0,0,0,1,2,3,4,5]`. -/
def zeroCol : Col :=
  [some 0, some 0, some 0, some 1, some 2, some 3, some 4, some 5]

/-- The zero-filtered values `[1,2,3,4,5]` of `zeroCol`, as a column. -/
def fiveCol : Col := [some 1, some 2, some 3, some 4, some 5]

/-- A column whose maximum `5` is a majority only after zero filtering:
raw frequency of `5` is `2/3`, filtered frequency is `1`. -/
def c2col : Col := [some 0, some 5, some 5]

/-- A column with a missing value at row 1. -/
def missingCol : Col := [some 1, none, some 3]

/-! ## Claim theorems: concrete scenario facts -/

set_option maxRecDepth 8000 in
/-- C1 (counterexample): on the end-to-end scenario — sheet with column
"score" = `[10..100]`, directive `colour_both`, margins `(10,10)`, colours
`(green, red)`, `majority_percentage = 10`, offsets `(0,0)` — the code does
compute thresholds `(91, 19)`, but it emits NO write command at all, not one
green and one red: each extreme occurs once in ten rows, so its relative
frequency is exactly `10% ≥ 10%`, both majority flags are set, and the strict
conditions `100 > v ≥ 91` and `10 < v ≤ 19` hold for no cell. -/
theorem c1_counterexample :
    calculate_bounds scoreCol 10 10 false = (some 91, some 19) ∧
    colourize_columns [("score", scoreCol)] ["score"] "colour_both" 10 10
      "green" "red" 10 0 0 = Except.ok [] := by decide

set_option maxRecDepth 8000 in
/-- C1 (amended): in the end-to-end scenario the thresholds are `91` and `19`
as claimed, but with `majority_percentage = 10` both extremes are majority
values (frequency exactly `1/10 ≥ 10/100`), so the strict margin conditions
exclude them, no other value lies in `[91, 100)` or `(10, 19]`, and the pass
emits no write command: no cell is coloured. -/
theorem c1_amended :
    upperMajority scoreCol 10 = true ∧ lowerMajority scoreCol 10 = true ∧
    calculate_bounds scoreCol 10 10 false = (some 91, some 19) ∧
    colourize_columns [("score", scoreCol)] ["score"] "colour_both" 10 10
      "green" "red" 10 0 0 = Except.ok [] := by decide

set_option maxRecDepth 8000 in
/-- C2 (counterexample): for the column `[0, 5, 5]` with
`majority_percentage = 70` and margins `(10,10)`, the maximum `5` has relative
frequency `1 ≥ 70/100` within the eligible (zero-filtered) cells, so by the
claim it is a majority value and must never be coloured; but the code measures
the frequency over the whole raw column (`2/3 < 70/100`), finds no majority,
and colours the value `5` (inclusively) — three upper write commands carrying
value `5` are emitted. -/
theorem c2_counterexample :
    colMax c2col = some 5 ∧
    ((((specEligible c2col).filter (fun v => decide (v = 5))).length : ℚ) /
        ((specEligible c2col).length : ℚ) ≥ 70 / 100) ∧
    upperMajority c2col 70 = false ∧
    colourize_columns [("a", c2col)] ["a"] "colour_upper" 10 10
      "green" "red" 70 0 0 =
      Except.ok
        [⟨-1, 0, 5, FmtHandle.upperFmt, "#C6EFCE"⟩,
         ⟨1, 0, 5, FmtHandle.upperFmt, "#C6EFCE"⟩,
         ⟨2, 0, 5, FmtHandle.upperFmt, "#C6EFCE"⟩] := by decide

set_option maxRecDepth 8000 in
/-- C3 (counterexample): on the column `[1..100]` with `upper_pct = 5` the
code's upper threshold is the R-7 `0.95` quantile `95.05 = 1901/20`, not `96`
as the claim states. -/
theorem c3_counterexample :
    (calculate_bounds col100 5 10 false).1 = some (1901 / 20) ∧
    ((1901 : ℚ) / 20 ≠ 96) := by decide

set_option maxRecDepth 8000 in
/-- C3 (amended): on `[1..100]`, `upper_pct = 5` yields upper threshold
`95.05` (the R-7 linear-interpolation `0.95` quantile) and `lower_pct = 10`
yields lower threshold `10.9`, as computed by `calculate_bounds`. -/
theorem c3_amended :
    calculate_bounds col100 5 10 false =
      (some (1901 / 20), some (109 / 10)) := by decide

set_option maxRecDepth 8000 in
/-- C4 (counterexample): with margins `(60, 60)` on `[1..10]` (directive
`colour_both`, default `majority_percentage = 10`, thresholds `4.6`/`6.4`),
the doubly-eligible cells with values `5` and `6` each receive TWO write
commands — the upper-colour one followed by the lower-colour one — not
exactly one upper-colour command as the claim states (rows `4` and `5` of the
output below each appear twice). -/
theorem c4_counterexample :
    colourize_columns [("a", tenCol)] ["a"] "colour_both" 60 60
      "green" "red" 10 0 0 =
      Except.ok
        [⟨1, 0, 2, FmtHandle.lowerFmt, "#FFC7CE"⟩,
         ⟨2, 0, 3, FmtHandle.lowerFmt, "#FFC7CE"⟩,
         ⟨3, 0, 4, FmtHandle.lowerFmt, "#FFC7CE"⟩,
         ⟨4, 0, 5, FmtHandle.upperFmt, "#C6EFCE"⟩,
         ⟨4, 0, 5, FmtHandle.lowerFmt, "#FFC7CE"⟩,
         ⟨5, 0, 6, FmtHandle.upperFmt, "#C6EFCE"⟩,
         ⟨5, 0, 6, FmtHandle.lowerFmt, "#FFC7CE"⟩,
         ⟨6, 0, 7, FmtHandle.upperFmt, "#C6EFCE"⟩,
         ⟨7, 0, 8, FmtHandle.upperFmt, "#C6EFCE"⟩,
         ⟨8, 0, 9, FmtHandle.upperFmt, "#C6EFCE"⟩] := by decide

set_option maxRecDepth 8000 in
/-- C5 (code bug, evaluated at the failing input): with `include_zero = false`
the column `[0,0,0,1,2,3,4,5]` is supposed to get the bounds of `[1,2,3,4,5]`
(`4.6` and `1.4`) and zero cells are supposed to be skipped; the code ignores
`include_zero` entirely (passing `true` changes nothing), computes the bounds
over all eight values (`4.3` and `0`), and colours the three zero cells in the
lower margin. -/
theorem c5_behavior :
    calculate_bounds zeroCol 10 10 false = (some (43 / 10), some 0) ∧
    calculate_bounds zeroCol 10 10 true = calculate_bounds zeroCol 10 10 false ∧
    calculate_bounds fiveCol 10 10 false = (some (23 / 5), some (7 / 5)) ∧
    (⟨0, 0, 0, FmtHandle.lowerFmt, "#FFC7CE"⟩ : WriteCmd) ∈
      colourizeOne zeroCol 8 0 "colour_lower" (some (43 / 10)) (some 0)
        "green" "red" 50 0 0 := by decide

set_option maxRecDepth 8000 in
/-- C7 (code bug, evaluated at the failing input): for the column `[1, 10]`
with directive `colour_upper`, margins `(50, 50)` (threshold `5.5`),
`majority_percentage = 60` (no majority) and offsets `(0, 0)`, the loop
`range(0, num_rows + 1)` visits the last data row twice (`iat[-1]` at
`row_pos = 0`, then `row_pos = num_rows`) and emits its write both at row
`row_offset - 1 = -1` and at row `row_offset + 1`: two write commands for one
cell, one of them outside the claimed positions `write_offset.row + row`. -/
theorem c7_behavior :
    calculate_bounds ([some 1, some 10] : Col) 50 50 false =
      (some (11 / 2), some (11 / 2)) ∧
    colourizeOne [some 1, some 10] 2 0 "colour_upper" (some (11 / 2))
      (some (11 / 2)) "green" "red" 60 0 0 =
      [⟨-1, 0, 10, FmtHandle.upperFmt, "#C6EFCE"⟩,
       ⟨1, 0, 10, FmtHandle.upperFmt, "#C6EFCE"⟩] := by decide

set_option maxRecDepth 8000 in
/-- C8 (counterexample): a column with no eligible numeric value does NOT make
bound computation fail — there is no `InsufficientDataError` anywhere in the
code.  For the sheet with all-missing column "a" and numeric column "b",
`calculate_bounds` on "a" returns NaN thresholds `(none, none)` and the whole
pass returns normally, emitting no writes for "a" (every NaN comparison is
false) and the usual writes for "b". -/
theorem c8_counterexample :
    (numericValues ([none, none] : Col)).length = 0 ∧
    calculate_bounds ([none, none] : Col) 50 50 false = (none, none) ∧
    colourize_columns [("a", ([none, none] : Col)), ("b", [some 1, some 2])]
      ["a", "b"] "colour_upper" 50 50 "green" "red" 60 0 0 =
      Except.ok
        [⟨-1, 1, 2, FmtHandle.upperFmt, "#C6EFCE"⟩,
         ⟨1, 1, 2, FmtHandle.upperFmt, "#C6EFCE"⟩] := by decide

set_option maxRecDepth 8000 in
/-- C9 (counterexample): requesting the absent column "ghost" raises a pandas
`KeyError` (not an `UnknownColumnError`) inside the upfront bounds
comprehension, aborting the whole call — the present column "a" is NOT
classified and no write command for it is emitted; and an invalid formatting
directive raises nothing at all (no `InvalidDirectiveError`): the pass
completes, silently emitting no write for any column. -/
theorem c9_counterexample :
    colourize_columns [("a", [some 1, some 2])] ["ghost", "a"] "colour_upper"
      50 50 "green" "red" 60 0 0 = Except.error (PyError.keyError "ghost") ∧
    colourize_columns [("a", [some 1, some 2])] ["a"] "colour_bogus"
      50 50 "green" "red" 60 0 0 = Except.ok [] := by decide

/-! ## Structural lemmas about the classifier -/

@[simp] lemma mkCtx_fmtOpt (col : Col) (colPos : ℕ) (fmtOpt : String)
    (uB lB : Option ℚ) (upC loC : String) (mp : ℚ) (colOff : ℤ) :
    (mkCtx col colPos fmtOpt uB lB upC loC mp colOff).fmtOpt = fmtOpt := rfl

@[simp] lemma mkCtx_largest (col : Col) (colPos : ℕ) (fmtOpt : String)
    (uB lB : Option ℚ) (upC loC : String) (mp : ℚ) (colOff : ℤ) :
    (mkCtx col colPos fmtOpt uB lB upC loC mp colOff).largest = colMax col := rfl

@[simp] lemma mkCtx_smallest (col : Col) (colPos : ℕ) (fmtOpt : String)
    (uB lB : Option ℚ) (upC loC : String) (mp : ℚ) (colOff : ℤ) :
    (mkCtx col colPos fmtOpt uB lB upC loC mp colOff).smallest = colMin col := rfl

@[simp] lemma mkCtx_upMaj (col : Col) (colPos : ℕ) (fmtOpt : String)
    (uB lB : Option ℚ) (upC loC : String) (mp : ℚ) (colOff : ℤ) :
    (mkCtx col colPos fmtOpt uB lB upC loC mp colOff).upMaj =
      upperMajority col mp := rfl

@[simp] lemma mkCtx_loMaj (col : Col) (colPos : ℕ) (fmtOpt : String)
    (uB lB : Option ℚ) (upC loC : String) (mp : ℚ) (colOff : ℤ) :
    (mkCtx col colPos fmtOpt uB lB upC loC mp colOff).loMaj =
      lowerMajority col mp := rfl

/-- Inversion for a single cell: every emitted write comes from a numeric
cell, targets the given row, carries the cell's value, and satisfies the
margin condition of its format handle. -/
lemma mem_cellWrites {ctx : Ctx} {outRow : ℤ} {cur : Cell} {w : WriteCmd}
    (hw : w ∈ cellWrites ctx outRow cur) :
    ∃ v, cur = some v ∧ w.row = outRow ∧ w.value = v ∧
      ((w.fmt = FmtHandle.upperFmt ∧
          upperCond ctx.largest ctx.uB ctx.upMaj v = true) ∨
       (w.fmt = FmtHandle.lowerFmt ∧
          lowerCond ctx.smallest ctx.lB ctx.loMaj v = true)) := by
  cases cur with
  | none => simp [cellWrites] at hw
  | some v =>
    refine ⟨v, rfl, ?_⟩
    simp only [cellWrites, List.mem_append] at hw
    rcases hw with h | h
    · by_cases hc : ((ctx.fmtOpt == "colour_upper" || ctx.fmtOpt == "colour_both")
          && upperCond ctx.largest ctx.uB ctx.upMaj v) = true
      · rw [if_pos hc] at h
        simp only [List.mem_singleton] at h
        subst h
        simp only [Bool.and_eq_true] at hc
        exact ⟨rfl, rfl, Or.inl ⟨rfl, hc.2⟩⟩
      · rw [if_neg hc] at h
        exact absurd h (List.not_mem_nil w)
    · by_cases hc : ((ctx.fmtOpt == "colour_lower" || ctx.fmtOpt == "colour_both")
          && lowerCond ctx.smallest ctx.lB ctx.loMaj v) = true
      · rw [if_pos hc] at h
        simp only [List.mem_singleton] at h
        subst h
        simp only [Bool.and_eq_true] at hc
        exact ⟨rfl, rfl, Or.inr ⟨rfl, hc.2⟩⟩
      · rw [if_neg hc] at h
        exact absurd h (List.not_mem_nil w)

/-- Inversion for the row loop: every write of a column run comes from some
loop counter `rowPos < nR + 1`. -/
lemma mem_colourizeOne {col : Col} {nR colPos : ℕ} {fmtOpt : String}
    {uB lB : Option ℚ} {upC loC : String} {mp : ℚ} {rowOff colOff : ℤ}
    {w : WriteCmd}
    (hw : w ∈ colourizeOne col nR colPos fmtOpt uB lB upC loC mp rowOff colOff) :
    ∃ rowPos, rowPos < nR + 1 ∧
      w ∈ cellWrites (mkCtx col colPos fmtOpt uB lB upC loC mp colOff)
        (rowOff + (rowPos : ℤ) - 1) (col.getD (dataIdx rowPos nR) none) := by
  simp only [colourizeOne, List.mem_flatMap, List.mem_range] at hw
  exact hw

/-- When the maximum is a majority value, the strict upper condition
`largest > value` keeps every upper-format write strictly below the
maximum. -/
lemma upper_excluded {col : Col} {mp M : ℚ} (hM : colMax col = some M)
    (hmaj : upperMajority col mp = true) {nR colPos : ℕ} {fmtOpt : String}
    {uB lB : Option ℚ} {upC loC : String} {rowOff colOff : ℤ} :
    ∀ w ∈ colourizeOne col nR colPos fmtOpt uB lB upC loC mp rowOff colOff,
      w.fmt = FmtHandle.upperFmt → w.value ≠ M := by
  intro w hw hfmt hvalM
  obtain ⟨rp, -, hmem⟩ := mem_colourizeOne hw
  obtain ⟨v, -, -, hval, hcase⟩ := mem_cellWrites hmem
  rcases hcase with ⟨-, hcond⟩ | ⟨hl, -⟩
  · rw [mkCtx_largest, hM, mkCtx_upMaj, hmaj] at hcond
    have hvM : v < M := by
      simp only [upperCond, if_true, Bool.and_eq_true, optGT,
        decide_eq_true_eq] at hcond
      exact hcond.1
    have : v = M := by rw [← hval]; exact hvalM
    exact absurd this (ne_of_lt hvM)
  · rw [hfmt] at hl
    exact FmtHandle.noConfusion hl

/-- Symmetric statement for the minimum and the lower margin. -/
lemma lower_excluded {col : Col} {mp m : ℚ} (hm : colMin col = some m)
    (hmaj : lowerMajority col mp = true) {nR colPos : ℕ} {fmtOpt : String}
    {uB lB : Option ℚ} {upC loC : String} {rowOff colOff : ℤ} :
    ∀ w ∈ colourizeOne col nR colPos fmtOpt uB lB upC loC mp rowOff colOff,
      w.fmt = FmtHandle.lowerFmt → w.value ≠ m := by
  intro w hw hfmt hvalm
  obtain ⟨rp, -, hmem⟩ := mem_colourizeOne hw
  obtain ⟨v, -, -, hval, hcase⟩ := mem_cellWrites hmem
  rcases hcase with ⟨hl, -⟩ | ⟨-, hcond⟩
  · rw [hfmt] at hl
    exact FmtHandle.noConfusion hl
  · rw [mkCtx_smallest, hm, mkCtx_loMaj, hmaj] at hcond
    have hvm : m < v := by
      simp only [lowerCond, if_true, Bool.and_eq_true, optLT,
        decide_eq_true_eq] at hcond
      exact hcond.1
    have : v = m := by rw [← hval]; exact hvalm
    exact absurd this (ne_of_gt hvm)

/-- C2 (amended): majority detection uses the extreme's relative frequency
over the WHOLE raw column (zero and missing cells counted in the
denominator), compared with `≥`; whenever the maximum's raw-column frequency
reaches `majority_percentage / 100`, the strict condition
`max > value ≥ upper_threshold` applies and no upper-margin write ever
carries the maximum value.  (In particular, for `[5,5,5,5,1,2,3]` with
`majority_percentage = 50` and `upper_pct = 10`, the value `5` is not
coloured — see the witness.) -/
theorem c2_amended (col : Col) (mp M : ℚ) (nR colPos : ℕ) (fmtOpt : String)
    (uB lB : Option ℚ) (upC loC : String) (rowOff colOff : ℤ)
    (hM : colMax col = some M)
    (hfreq : (countEq col M : ℚ) / (col.length : ℚ) ≥ mp / 100) :
    ∀ w ∈ colourizeOne col nR colPos fmtOpt uB lB upC loC mp rowOff colOff,
      w.fmt = FmtHandle.upperFmt → w.value ≠ M := by
  have hmaj : upperMajority col mp = true := by
    simp only [upperMajority, hM, decide_eq_true_eq]
    exact hfreq
  exact upper_excluded hM hmaj

set_option maxRecDepth 8000 in
/-- C2 (witness): the spec's own example — column `[5,5,5,5,1,2,3]`,
`majority_percentage = 50`, margins `(10, 10)` (upper threshold `5`): the
maximum `5` has frequency `4/7 ≥ 50/100`, and no upper write of the run
carries the value `5`. -/
theorem c2_witness :
    colMax sevenCol = some 5 ∧
    ((countEq sevenCol 5 : ℚ) / (sevenCol.length : ℚ) ≥ 50 / 100) ∧
    (∀ w ∈ colourizeOne sevenCol 7 0 "colour_upper" (some 5) (some (8 / 5))
        "green" "red" 50 0 0,
      w.fmt = FmtHandle.upperFmt → w.value ≠ 5) :=
  ⟨by decide, by decide,
   c2_amended sevenCol 50 5 7 0 "colour_upper" (some 5) (some (8 / 5))
     "green" "red" 0 0 (by decide) (by decide)⟩

/-- C4 (amended): a cell eligible for both margins under directive
`colour_both` receives exactly TWO write commands, the upper-colour one first
and the lower-colour one second — not a single upper-colour command.  (In the
workbook the later write overwrites the earlier, so such a cell ends up with
the LOWER colour.) -/
theorem c4_amended (ctx : Ctx) (outRow : ℤ) (v : ℚ)
    (hf : ctx.fmtOpt = "colour_both")
    (hu : upperCond ctx.largest ctx.uB ctx.upMaj v = true)
    (hl : lowerCond ctx.smallest ctx.lB ctx.loMaj v = true) :
    cellWrites ctx outRow (some v) =
      [⟨outRow, ctx.outCol, v, FmtHandle.upperFmt, bgColor ctx.upC⟩,
       ⟨outRow, ctx.outCol, v, FmtHandle.lowerFmt, bgColor ctx.loC⟩] := by
  simp [cellWrites, hf, hu, hl]

set_option maxRecDepth 8000 in
/-- C4 (witness): in the overlap scenario (`[1..10]`, margins `(60, 60)`,
thresholds `4.6`/`6.4`, default majority `10`), the doubly-eligible cell with
value `5` at data row 4 gets the upper write followed by the lower write. -/
theorem c4_witness :
    (mkCtx tenCol 0 "colour_both" (some (23 / 5)) (some (32 / 5))
        "green" "red" 10 0).fmtOpt = "colour_both" ∧
    cellWrites (mkCtx tenCol 0 "colour_both" (some (23 / 5)) (some (32 / 5))
        "green" "red" 10 0) 4 (some 5) =
      [⟨4, 0, 5, FmtHandle.upperFmt, "#C6EFCE"⟩,
       ⟨4, 0, 5, FmtHandle.lowerFmt, "#FFC7CE"⟩] :=
  ⟨rfl,
   c4_amended (mkCtx tenCol 0 "colour_both" (some (23 / 5)) (some (32 / 5))
      "green" "red" 10 0) 4 5 rfl (by decide) (by decide)⟩

/-- C6 (confirmed): a missing cell produces no write command: no write of the
column run targets the missing cell's output row `write_offset.row + r`, and
when the missing cell is the last data row, none targets the duplicated slot
`write_offset.row - 1` either.  (The raw value is left in place — the
classifier only ever overwrites a cell it colours — and no error is
raised.) -/
theorem c6_missing_passthrough (col : Col) (nR r colPos : ℕ) (fmtOpt : String)
    (uB lB : Option ℚ) (upC loC : String) (mp : ℚ) (rowOff colOff : ℤ)
    (hn : nR = col.length) (hr : r < nR) (hmiss : col.getD r none = none) :
    ∀ w ∈ colourizeOne col nR colPos fmtOpt uB lB upC loC mp rowOff colOff,
      w.row ≠ rowOff + (r : ℤ) ∧ (r + 1 = nR → w.row ≠ rowOff - 1) := by
  intro w hw
  obtain ⟨rp, hrp, hmem⟩ := mem_colourizeOne hw
  obtain ⟨v, hcur, hrow, -, -⟩ := mem_cellWrites hmem
  constructor
  · intro hEq
    rw [hrow] at hEq
    have hrp1 : rp = r + 1 := by omega
    rw [hrp1] at hcur
    have hidx : dataIdx (r + 1) nR = r := by simp [dataIdx]
    rw [hidx, hmiss] at hcur
    exact Option.noConfusion hcur
  · intro hlast hEq
    rw [hrow] at hEq
    have hrp0 : rp = 0 := by omega
    rw [hrp0] at hcur
    have hidx : dataIdx 0 nR = r := by
      have h0 : dataIdx 0 nR = nR - 1 := rfl
      rw [h0]
      omega
    rw [hidx, hmiss] at hcur
    exact Option.noConfusion hcur

set_option maxRecDepth 8000 in
/-- C6 (witness): for the column `[1, missing, 3]` classified with directive
`colour_both`, bounds `(2, 2)` and `majority_percentage = 60`, no emitted
write targets row `1` (the missing cell). -/
theorem c6_witness :
    (3 = missingCol.length) ∧ 1 < 3 ∧ missingCol.getD 1 none = none ∧
    (∀ w ∈ colourizeOne missingCol 3 0 "colour_both" (some 2) (some 2)
        "green" "red" 60 0 0,
      w.row ≠ 0 + (1 : ℤ) ∧ (1 + 1 = 3 → w.row ≠ 0 - 1)) :=
  ⟨by decide, by decide, by decide,
   c6_missing_passthrough missingCol 3 1 0 "colour_both" (some 2) (some 2)
     "green" "red" 60 0 0 (by decide) (by decide) (by decide)⟩

/-! ## Lemmas about empty columns and the error paths -/

lemma flatMap_nil {α β : Type} (l : List α) (f : α → List β)
    (h : ∀ x, f x = []) : l.flatMap f = [] := by
  induction l with
  | nil => rfl
  | cons a t ih => simp [List.flatMap_cons, h a, ih]

lemma numericValues_nil_of_all_none {col : Col} (h : ∀ c ∈ col, c = none) :
    numericValues col = [] := by
  induction col with
  | nil => rfl
  | cons c t ih =>
    have hc := h c (List.mem_cons_self c t)
    subst hc
    have ht : numericValues (none :: t) = numericValues t := by
      simp [numericValues]
    rw [ht]
    exact ih (fun x hx => h x (List.mem_cons_of_mem _ hx))

lemma getD_none_of_all_none {col : Col} (h : ∀ c ∈ col, c = none) (i : ℕ) :
    col.getD i none = none := by
  induction col generalizing i with
  | nil => cases i <;> rfl
  | cons c t ih =>
    cases i with
    | zero => exact h c (List.mem_cons_self c t)
    | succ j => exact ih (fun x hx => h x (List.mem_cons_of_mem _ hx)) j

/-- C8 (amended): bound computation never fails — there is no
`InsufficientDataError` in the code.  On a column with no numeric value it
returns the NaN thresholds `(none, none)` (regardless of `include_zero`,
which is ignored), and the classification of that column emits no write
command at all (every comparison with NaN is false); other columns of the
pass are unaffected. -/
theorem c8_amended (col : Col) (u l : ℚ) (iz : Bool)
    (h : ∀ c ∈ col, c = none) :
    calculate_bounds col u l iz = (none, none) ∧
    ∀ (nR colPos : ℕ) (fmtOpt upC loC : String) (mp : ℚ) (rowOff colOff : ℤ),
      colourizeOne col nR colPos fmtOpt (calculate_bounds col u l iz).1
        (calculate_bounds col u l iz).2 upC loC mp rowOff colOff = [] := by
  have hnum := numericValues_nil_of_all_none h
  constructor
  · simp [calculate_bounds, hnum, sortAsc, quantileSorted]
  · intro nR colPos fmtOpt upC loC mp rowOff colOff
    simp only [colourizeOne]
    apply flatMap_nil
    intro rp
    rw [getD_none_of_all_none h]
    rfl

set_option maxRecDepth 8000 in
/-- C8 (witness): the all-missing two-row column. -/
theorem c8_witness :
    (∀ c ∈ ([none, none] : Col), c = none) ∧
    calculate_bounds ([none, none] : Col) 50 50 false = (none, none) ∧
    colourizeOne ([none, none] : Col) 2 0 "colour_upper"
      (calculate_bounds ([none, none] : Col) 50 50 false).1
      (calculate_bounds ([none, none] : Col) 50 50 false).2
      "green" "red" 60 0 0 = [] :=
  ⟨by decide, (c8_amended ([none, none] : Col) 50 50 false (by decide)).1,
   (c8_amended ([none, none] : Col) 50 50 false (by decide)).2
     2 0 "colour_upper" "green" "red" 60 0 0⟩

lemma getColumn_ok_of_has {s : Sheet} {n : String}
    (h : hasColumn s n = true) : ∃ c, getColumn s n = Except.ok c := by
  unfold hasColumn at h
  cases hfc : findColumn s n with
  | none => rw [hfc] at h; simp at h
  | some c => exact ⟨c, by simp [getColumn, hfc]⟩

lemma getColumn_error_of_not_has {s : Sheet} {n : String}
    (h : hasColumn s n = false) :
    getColumn s n = Except.error (PyError.keyError n) := by
  unfold hasColumn at h
  cases hfc : findColumn s n with
  | none => simp [getColumn, hfc]
  | some c => rw [hfc] at h; simp at h

lemma columnPosAux_isSome (s : Sheet) (n : String) :
    (columnPosAux s n).isSome = (findColumn s n).isSome := by
  induction s with
  | nil => rfl
  | cons p t ih =>
    cases hb : (p.1 == n) <;> simp [columnPosAux, findColumn, hb, ih]

lemma columnPos_ok_of_has {s : Sheet} {n : String}
    (h : hasColumn s n = true) : ∃ i, columnPos s n = Except.ok i := by
  unfold hasColumn at h
  have hs : (columnPosAux s n).isSome = true := by
    rw [columnPosAux_isSome]; exact h
  cases haux : columnPosAux s n with
  | none => rw [haux] at hs; simp at hs
  | some i => exact ⟨i, by simp [columnPos, haux]⟩

lemma boundsList_error_of_firstMissing {s : Sheet} {names : List String}
    {m : String} (u l : ℚ) (hm : firstMissing s names = some m) :
    boundsList s names u l = Except.error (PyError.keyError m) := by
  induction names with
  | nil => simp [firstMissing] at hm
  | cons n ns ih =>
    cases hc : hasColumn s n with
    | false =>
      have hmn : n = m := by simpa [firstMissing, hc] using hm
      subst hmn
      simp [boundsList, getColumn_error_of_not_has hc]
    | true =>
      obtain ⟨c, hcol⟩ := getColumn_ok_of_has hc
      have hm2 : firstMissing s ns = some m := by
        simpa [firstMissing, hc] using hm
      simp [boundsList, hcol, ih hm2]

lemma boundsList_ok_of_none {s : Sheet} {names : List String} (u l : ℚ)
    (hm : firstMissing s names = none) :
    ∃ bs, boundsList s names u l = Except.ok bs := by
  induction names with
  | nil => exact ⟨[], rfl⟩
  | cons n ns ih =>
    cases hc : hasColumn s n with
    | false => simp [firstMissing, hc] at hm
    | true =>
      obtain ⟨c, hcol⟩ := getColumn_ok_of_has hc
      obtain ⟨bs, hbs⟩ := ih (by simpa [firstMissing, hc] using hm)
      refine ⟨(n, calculate_bounds c u l false) :: bs, ?_⟩
      simp [boundsList, hcol, hbs]

lemma cellWrites_invalid {fmtOpt : String} (h1 : fmtOpt ≠ "colour_upper")
    (h2 : fmtOpt ≠ "colour_lower") (h3 : fmtOpt ≠ "colour_both")
    (ctx : Ctx) (hctx : ctx.fmtOpt = fmtOpt) (outRow : ℤ) (cur : Cell) :
    cellWrites ctx outRow cur = [] := by
  cases cur with
  | none => rfl
  | some v => simp [cellWrites, hctx, h1, h2, h3]

lemma colourizeOne_invalid {fmtOpt : String} (h1 : fmtOpt ≠ "colour_upper")
    (h2 : fmtOpt ≠ "colour_lower") (h3 : fmtOpt ≠ "colour_both")
    (col : Col) (nR colPos : ℕ) (uB lB : Option ℚ) (upC loC : String)
    (mp : ℚ) (rowOff colOff : ℤ) :
    colourizeOne col nR colPos fmtOpt uB lB upC loC mp rowOff colOff = [] := by
  simp only [colourizeOne]
  apply flatMap_nil
  intro rp
  exact cellWrites_invalid h1 h2 h3 _ rfl _ _

lemma writesList_invalid {s : Sheet} {names : List String} {fmtOpt : String}
    (nR : ℕ) (bs : List (String × (Option ℚ × Option ℚ)))
    (upC loC : String) (mp : ℚ) (rowOff colOff : ℤ)
    (hall : firstMissing s names = none)
    (h1 : fmtOpt ≠ "colour_upper") (h2 : fmtOpt ≠ "colour_lower")
    (h3 : fmtOpt ≠ "colour_both") :
    writesList s nR bs names fmtOpt upC loC mp rowOff colOff =
      Except.ok [] := by
  induction names with
  | nil => rfl
  | cons n ns ih =>
    cases hc : hasColumn s n with
    | false => simp [firstMissing, hc] at hall
    | true =>
      obtain ⟨i, hcp⟩ := columnPos_ok_of_has hc
      obtain ⟨c, hcol⟩ := getColumn_ok_of_has hc
      have hrest := ih (by simpa [firstMissing, hc] using hall)
      simp [writesList, hcp, hcol, hrest, colourizeOne_invalid h1 h2 h3]

/-- C9 (amended): there is no `UnknownColumnError` and no
`InvalidDirectiveError`, and failures are NOT isolated per column.  A
requested column absent from the sheet raises a pandas `KeyError` during the
upfront bounds computation, aborting the whole call — no requested column
(present or not) is classified and no write command is emitted.  An invalid
formatting directive raises nothing at all: both margin membership tests are
false for every cell, so the pass completes emitting no write for any
column. -/
theorem c9_amended :
    (∀ (s : Sheet) (names : List String) (fmtOpt : String) (u l : ℚ)
        (upC loC : String) (mp : ℚ) (ro co : ℤ) (m : String),
      firstMissing s names = some m →
      colourize_columns s names fmtOpt u l upC loC mp ro co =
        Except.error (PyError.keyError m)) ∧
    (∀ (s : Sheet) (names : List String) (fmtOpt : String) (u l : ℚ)
        (upC loC : String) (mp : ℚ) (ro co : ℤ),
      firstMissing s names = none →
      fmtOpt ≠ "colour_upper" → fmtOpt ≠ "colour_lower" →
      fmtOpt ≠ "colour_both" →
      colourize_columns s names fmtOpt u l upC loC mp ro co =
        Except.ok []) := by
  constructor
  · intro s names fmtOpt u l upC loC mp ro co m hm
    simp [colourize_columns, boundsList_error_of_firstMissing u l hm]
  · intro s names fmtOpt u l upC loC mp ro co hall h1 h2 h3
    obtain ⟨bs, hbs⟩ := boundsList_ok_of_none u l hall
    simp [colourize_columns, hbs,
      writesList_invalid (numRows s) bs upC loC mp ro co hall h1 h2 h3]

/-- C9 (witness): the sheet with the single column "a": requesting
`["ghost", "a"]` aborts with `KeyError "ghost"`, and the invalid directive
`"colour_zzz"` on `["a"]` yields an error-free, write-free pass. -/
theorem c9_witness :
    (firstMissing [("a", [some 1, some 2])] ["ghost", "a"] = some "ghost") ∧
    colourize_columns [("a", [some 1, some 2])] ["ghost", "a"] "colour_upper"
      50 50 "green" "red" 60 0 0 = Except.error (PyError.keyError "ghost") ∧
    colourize_columns [("a", [some 1, some 2])] ["a"] "colour_zzz"
      50 50 "green" "red" 60 0 0 = Except.ok [] :=
  ⟨by decide,
   c9_amended.1 [("a", [some 1, some 2])] ["ghost", "a"] "colour_upper"
     50 50 "green" "red" 60 0 0 "ghost" (by decide),
   c9_amended.2 [("a", [some 1, some 2])] ["a"] "colour_zzz"
     50 50 "green" "red" 60 0 0 (by decide) (by decide) (by decide) (by decide)⟩

/-- A small column whose extremes each occur once. -/
def demoCol : Col := [some 1, some 2, some 3]

/-- C10 (confirmed): majority detection compares the extreme's raw-column
frequency with `≥`, so the extremes are excluded from their margins whenever
that frequency reaches the threshold: always when `majority_percentage = 0`
(any frequency is `≥ 0`), and under the default `majority_percentage = 10`
for every column of at most 10 rows whose maximum (resp. minimum) occurs
once (`1/n ≥ 1/10`).  In those cases no upper-format write ever carries the
maximum value and no lower-format write ever carries the minimum value. -/
theorem c10_majority_ge_excludes_extremes (col : Col) (nR colPos : ℕ)
    (fmtOpt : String) (uB lB : Option ℚ) (upC loC : String)
    (rowOff colOff : ℤ) (M m : ℚ) :
    ((colMax col = some M →
        ∀ w ∈ colourizeOne col nR colPos fmtOpt uB lB upC loC 0 rowOff colOff,
          w.fmt = FmtHandle.upperFmt → w.value ≠ M) ∧
     (colMin col = some m →
        ∀ w ∈ colourizeOne col nR colPos fmtOpt uB lB upC loC 0 rowOff colOff,
          w.fmt = FmtHandle.lowerFmt → w.value ≠ m)) ∧
    ((col.length ≤ 10 → colMax col = some M → countEq col M = 1 →
        ∀ w ∈ colourizeOne col nR colPos fmtOpt uB lB upC loC 10 rowOff colOff,
          w.fmt = FmtHandle.upperFmt → w.value ≠ M) ∧
     (col.length ≤ 10 → colMin col = some m → countEq col m = 1 →
        ∀ w ∈ colourizeOne col nR colPos fmtOpt uB lB upC loC 10 rowOff colOff,
          w.fmt = FmtHandle.lowerFmt → w.value ≠ m)) := by
  have hlen : ∀ v : ℚ, countEq col v = 1 → (0 : ℚ) < (col.length : ℚ) := by
    intro v hcount
    have h1 : countEq col v ≤ col.length := List.length_filter_le _ _
    rw [hcount] at h1
    exact_mod_cast Nat.lt_of_lt_of_le Nat.zero_lt_one h1
  have hfreq10 : ∀ v : ℚ, col.length ≤ 10 → countEq col v = 1 →
      (countEq col v : ℚ) / (col.length : ℚ) ≥ 10 / 100 := by
    intro v hle hcount
    have hpos := hlen v hcount
    have h10 : (col.length : ℚ) ≤ 10 := by exact_mod_cast hle
    rw [hcount]
    calc (10 : ℚ) / 100 = 1 / 10 := by norm_num
      _ ≤ 1 / (col.length : ℚ) := one_div_le_one_div_of_le hpos h10
      _ = ((1 : ℕ) : ℚ) / (col.length : ℚ) := by norm_num
  refine ⟨⟨?_, ?_⟩, ?_, ?_⟩
  · intro hM
    refine upper_excluded hM ?_
    simp only [upperMajority, hM, ge_iff_le, decide_eq_true_eq]
    positivity
  · intro hm
    refine lower_excluded hm ?_
    simp only [lowerMajority, hm, ge_iff_le, decide_eq_true_eq]
    positivity
  · intro hle hM hcount
    refine upper_excluded hM ?_
    simp only [upperMajority, hM, decide_eq_true_eq]
    exact hfreq10 M hle hcount
  · intro hle hm hcount
    refine lower_excluded hm ?_
    simp only [lowerMajority, hm, decide_eq_true_eq]
    exact hfreq10 m hle hcount

set_option maxRecDepth 8000 in
/-- C10 (witness): the three-row column `[1, 2, 3]`: with
`majority_percentage = 0` no upper write carries `3`, and with the default
`10` (three rows, unique minimum) no lower write carries `1`. -/
theorem c10_witness :
    colMax demoCol = some 3 ∧ colMin demoCol = some 1 ∧
    demoCol.length ≤ 10 ∧ countEq demoCol 1 = 1 ∧
    (∀ w ∈ colourizeOne demoCol 3 0 "colour_both" (some 2) (some 2)
        "green" "red" 0 0 0, w.fmt = FmtHandle.upperFmt → w.value ≠ 3) ∧
    (∀ w ∈ colourizeOne demoCol 3 0 "colour_both" (some 2) (some 2)
        "green" "red" 10 0 0, w.fmt = FmtHandle.lowerFmt → w.value ≠ 1) :=
  ⟨by decide, by decide, by decide, by decide,
   (c10_majority_ge_excludes_extremes demoCol 3 0 "colour_both" (some 2)
      (some 2) "green" "red" 0 0 3 1).1.1 (by decide),
   (c10_majority_ge_excludes_extremes demoCol 3 0 "colour_both" (some 2)
      (some 2) "green" "red" 0 0 3 1).2.2 (by decide) (by decide) (by decide)⟩
